import Mathlib

/-!
Shallow embedding of the alertR client code under verification:
* `sensorClientRaspberryPi/lib/sensor.py`
  (`RaspberryPiGPIOPollingSensor`, `RaspberryPiGPIOInterruptSensor`,
   `RaspberryPiDS18b20Sensor`, `SensorExecuter.execute`)
* `managerClientDatabase/lib/localServer.py` (`LocalServerSession.handle`)

Python `int(time.time())` timestamps are modelled as `Int`; GPIO reads and
sensor states (0/1 in the code) as `Nat`; the float temperature values as
`Rat` (only comparisons are performed on them, never rounding arithmetic).
Side effects (spawned `AsynchronousSender` threads, `self.request.send`)
are modelled as explicit return values: a list of dispatched events, an
`Option` response, a `Bool` "background refresh started" flag.
-/

/-- Embeds the `Ordering` enum from `localObjects` used by
`RaspberryPiDS18b20Sensor` (named `SensorOrdering` here because Lean core
already has an `Ordering` type). -/
inductive SensorOrdering
  | LT
  | EQ
  | GT
deriving DecidableEq, Repr

/-- Embeds the mutable fields of `RaspberryPiGPIOPollingSensor` that
`updateState` touches: `state`, `currStateCtr` and the configured
threshold `thresStateCtr`. -/
structure PollingState where
  state : Nat
  currStateCtr : Nat
  thresStateCtr : Nat
deriving DecidableEq, Repr

/-- Embeds `RaspberryPiGPIOPollingSensor.updateState`
(src/sensorClientRaspberryPi/lib/sensor.py lines 169-178).  The raw
`GPIO.input(self.gpioPin)` read is the explicit argument `currState`.

```
currState = GPIO.input(self.gpioPin)
if currState != self.state:
    self.currStateCtr += 1
    if self.currStateCtr >= self.thresStateCtr:
        self.state = currState
else:
    self.currStateCtr = 0
```
Note that the code does not reset `currStateCtr` when it assigns
`self.state = currState`. -/
def pollingUpdateState (s : PollingState) (currState : Nat) : PollingState :=
  if currState ≠ s.state then
    let ctr := s.currStateCtr + 1
    if ctr ≥ s.thresStateCtr then
      { s with currStateCtr := ctr, state := currState }
    else
      { s with currStateCtr := ctr }
  else
    { s with currStateCtr := 0 }

/-- Repeated calls of `updateState` on a sequence of raw GPIO reads. -/
def pollingRunReads (s : PollingState) (reads : List Nat) : PollingState :=
  reads.foldl pollingUpdateState s

/-- Embeds the fields of `RaspberryPiGPIOInterruptSensor` used by
`_interruptCallback` and `updateState`: the configuration values
(`triggerState`, `delayBetweenTriggers`, `timeSensorTriggered`,
`edgeCountBeforeTrigger`) and the mutable state (`state`,
`_internalState` — written `internalState` here —, `lastTimeTriggered`,
`edgeCounter`). -/
structure InterruptState where
  state : Nat
  internalState : Nat
  lastTimeTriggered : Int
  edgeCounter : Nat
  triggerState : Nat
  delayBetweenTriggers : Int
  timeSensorTriggered : Int
  edgeCountBeforeTrigger : Nat
deriving DecidableEq, Repr

/-- Embeds `RaspberryPiGPIOInterruptSensor._interruptCallback`
(src/sensorClientRaspberryPi/lib/sensor.py lines 239-264); `utcTimestamp`
is the explicit argument `t`.

```
utcTimestamp = int(time.time())
if (utcTimestamp - self.lastTimeTriggered) > self.delayBetweenTriggers:
    self.edgeCounter = 1
    self.lastTimeTriggered = utcTimestamp
else:
    self.edgeCounter += 1
    if self.edgeCounter >= self.edgeCountBeforeTrigger:
        self._internalState = self.triggerState
``` -/
def interruptCallback (s : InterruptState) (t : Int) : InterruptState :=
  if t - s.lastTimeTriggered > s.delayBetweenTriggers then
    { s with edgeCounter := 1, lastTimeTriggered := t }
  else
    let c := s.edgeCounter + 1
    if c ≥ s.edgeCountBeforeTrigger then
      { s with edgeCounter := c, internalState := s.triggerState }
    else
      { s with edgeCounter := c }

/-- Embeds `RaspberryPiGPIOInterruptSensor.updateState`
(src/sensorClientRaspberryPi/lib/sensor.py lines 309-319).

```
utcTimestamp = int(time.time())
if (self.state == self.triggerState
    and ((utcTimestamp - self.lastTimeTriggered)
    > self.timeSensorTriggered)):
    self._internalState = 1 - self.triggerState
self.state = self._internalState
``` -/
def interruptUpdateState (s : InterruptState) (t : Int) : InterruptState :=
  let s' :=
    if s.state = s.triggerState ∧ t - s.lastTimeTriggered > s.timeSensorTriggered then
      { s with internalState := 1 - s.triggerState }
    else
      s
  { s' with state := s'.internalState }

/-- A sequence of interrupt callbacks at the given timestamps. -/
def interruptRun (s : InterruptState) (ts : List Int) : InterruptState :=
  ts.foldl interruptCallback s

/-- Embeds the fields of `RaspberryPiDS18b20Sensor` used by `updateState`:
the configuration (`triggerState`, `interval`, `hasThreshold`,
`threshold`, `ordering`) and the mutable state (`state`,
`lastTemperatureUpdate`, `sensorData`). -/
structure DS18b20State where
  state : Nat
  triggerState : Nat
  interval : Int
  lastTemperatureUpdate : Int
  hasThreshold : Bool
  threshold : Rat
  ordering : SensorOrdering
  sensorData : Rat
deriving DecidableEq, Repr

/-- The constant `self.refreshInterval = 60` set in
`RaspberryPiDS18b20Sensor.__init__`
(src/sensorClientRaspberryPi/lib/sensor.py line 368); the field is
declared together with the comment "only allow temperature refreshes
every 60 seconds" but is never read by `updateState`. -/
def refreshInterval : Int := 60

/-- Embeds the threshold portion of `RaspberryPiDS18b20Sensor.updateState`
(src/sensorClientRaspberryPi/lib/sensor.py lines 462-527), acting on the
state after `self.sensorData` has been refreshed:

```
if self.hasThreshold:
    if self.state == self.triggerState:
        if self.ordering == Ordering.LT:
            if self.sensorData >= self.threshold: self.state = 1 - self.triggerState
        elif self.ordering == Ordering.EQ:
            if self.sensorData != self.threshold: self.state = 1 - self.triggerState
        elif self.ordering == Ordering.GT:
            if self.sensorData <= self.threshold: self.state = 1 - self.triggerState
    else:
        if self.ordering == Ordering.LT:
            if self.sensorData < self.threshold: self.state = self.triggerState
        elif self.ordering == Ordering.EQ:
            if self.sensorData == self.threshold: self.state = self.triggerState
        elif self.ordering == Ordering.GT:
            if self.sensorData > self.threshold: self.state = self.triggerState
``` -/
def ds18b20ThresholdCheck (s : DS18b20State) : DS18b20State :=
  if s.hasThreshold then
    if s.state = s.triggerState then
      match s.ordering with
      | SensorOrdering.LT =>
          if s.sensorData ≥ s.threshold then { s with state := 1 - s.triggerState } else s
      | SensorOrdering.EQ =>
          if s.sensorData ≠ s.threshold then { s with state := 1 - s.triggerState } else s
      | SensorOrdering.GT =>
          if s.sensorData ≤ s.threshold then { s with state := 1 - s.triggerState } else s
    else
      match s.ordering with
      | SensorOrdering.LT =>
          if s.sensorData < s.threshold then { s with state := s.triggerState } else s
      | SensorOrdering.EQ =>
          if s.sensorData = s.threshold then { s with state := s.triggerState } else s
      | SensorOrdering.GT =>
          if s.sensorData > s.threshold then { s with state := s.triggerState } else s
  else
    s

/-- Embeds `RaspberryPiDS18b20Sensor.updateState`
(src/sensorClientRaspberryPi/lib/sensor.py lines 441-527).
`t` is `int(time.time())`; `shared` is the value of the lock-protected
cell `self._sensorData` that the copy `self.sensorData = self._sensorData`
reads (the background `_updateData` thread writes it asynchronously).
The returned `Bool` records whether a background refresh thread was
started this call:

```
utcTimestamp = int(time.time())
if (utcTimestamp - self.lastTemperatureUpdate) > self.interval:
    self.lastTemperatureUpdate = utcTimestamp
    thread = threading.Thread(target=self._updateData)
    thread.start()
self.updateLock.acquire()
self.sensorData = self._sensorData
self.updateLock.release()
# ... threshold check (ds18b20ThresholdCheck) ...
```
Note the guard compares against `self.interval`, not
`self.refreshInterval`. -/
def ds18b20UpdateState (s : DS18b20State) (t : Int) (shared : Rat) :
    DS18b20State × Bool :=
  let started := t - s.lastTemperatureUpdate > s.interval
  let s1 := if started then { s with lastTemperatureUpdate := t } else s
  let s2 := { s1 with sensorData := shared }
  (ds18b20ThresholdCheck s2, started)

/-- Embeds the `SensorAlert` message object from `localObjects` as filled
in by `SensorExecuter.execute` (client-side fields only).  `optionalData`
(a Python dict) is modelled as an `Option String` placeholder and
`sensorData` as `Rat`; the claims depend only on which fields are copied,
not on their encoding. -/
structure SensorAlert where
  clientSensorId : Nat
  state : Nat
  hasOptionalData : Bool
  optionalData : Option String
  changeState : Bool
  hasLatestData : Bool
  dataType : Nat
  sensorData : Rat
deriving DecidableEq, Repr

/-- Embeds the `StateChange` message object from `localObjects` as filled
in by `SensorExecuter.execute`. -/
structure StateChange where
  clientSensorId : Nat
  state : Nat
  dataType : Nat
  sensorData : Rat
deriving DecidableEq, Repr

/-- A message handed to an `AsynchronousSender` by the per-sensor part of
the poll loop: either `sendSensorAlert = True` with a `SensorAlert`, or
`sendStateChange = True` with a `StateChange`. -/
inductive Event
  | sensorAlert (a : SensorAlert)
  | stateChange (c : StateChange)
deriving DecidableEq, Repr

/-- Snapshot of everything `SensorExecuter.execute` reads from one sensor
during one poll cycle: `oldState` is `sensor.getState()` before
`sensor.updateState()`, `currentState` is `sensor.getState()` after it,
`forcedAlert` is the result of `sensor.forceSendAlert()`, and the rest
are the attribute values of the sensor. -/
structure SensorSnapshot where
  id : Nat
  oldState : Nat
  currentState : Nat
  forcedAlert : Option SensorAlert
  handlesStateMsgs : Bool
  triggerState : Nat
  triggerAlert : Bool
  triggerAlertNormal : Bool
  hasOptionalData : Bool
  optionalData : Option String
  changeState : Bool
  hasLatestData : Bool
  sensorDataType : Nat
  sensorData : Rat
deriving DecidableEq, Repr

/-- Embeds the per-sensor body of the poll loop in
`SensorExecuter.execute` (src/sensorClientRaspberryPi/lib/sensor.py lines
591-737).  Returns the list of events handed to `AsynchronousSender`
threads for this sensor this cycle, together with the final value of the
local variable `oldState` (reassigned to `currentState` on the forced
path, line 601).  Each branch of the `if`/`elif` chain dispatches exactly
one message and `continue`s, so the list is the one event of the branch
taken, or `[]` for the `continue`-only branches. -/
def processSensor (s : SensorSnapshot) : List Event × Nat :=
  match s.forcedAlert with
  | some sensorAlert => ([Event.sensorAlert sensorAlert], s.currentState)
  | none =>
    if s.oldState = s.currentState then
      ([], s.oldState)
    else if s.handlesStateMsgs then
      ([], s.oldState)
    else if s.currentState = s.triggerState then
      if s.triggerAlert then
        ([Event.sensorAlert
            { clientSensorId := s.id
              state := 1
              hasOptionalData := s.hasOptionalData
              optionalData := s.optionalData
              changeState := s.changeState
              hasLatestData := s.hasLatestData
              dataType := s.sensorDataType
              sensorData := s.sensorData }], s.oldState)
      else
        ([Event.stateChange
            { clientSensorId := s.id
              state := 1
              dataType := s.sensorDataType
              sensorData := s.sensorData }], s.oldState)
    else
      if s.triggerAlertNormal then
        ([Event.sensorAlert
            { clientSensorId := s.id
              state := 0
              hasOptionalData := s.hasOptionalData
              optionalData := s.optionalData
              changeState := s.changeState
              hasLatestData := s.hasLatestData
              dataType := s.sensorDataType
              sensorData := s.sensorData }], s.oldState)
      else
        ([Event.stateChange
            { clientSensorId := s.id
              state := 0
              dataType := s.sensorDataType
              sensorData := s.sensorData }], s.oldState)

/-- Embeds the full-state timer at the end of each poll cycle of
`SensorExecuter.execute` (src/sensorClientRaspberryPi/lib/sensor.py lines
754-771).  Input: the local variable `lastFullStateSent` and the current
`utcTimestamp`; output: whether a `sendSensorsState` message was
dispatched, and the new `lastFullStateSent`.

```
utcTimestamp = int(time.time())
if (utcTimestamp - lastFullStateSent) > 60:
    ... asyncSenderProcess.sendSensorsState = True ...
    lastFullStateSent = utcTimestamp
``` -/
def fullStateStep (lastFullStateSent : Int) (t : Int) : Bool × Int :=
  if t - lastFullStateSent > 60 then
    (true, t)
  else
    (false, lastFullStateSent)

/-- The error reason strings produced by `LocalServerSession.handle`
(src/managerClientDatabase/lib/localServer.py), as an enum:
`onlyOptionMessageValid` = "only option message valid",
`receivedJsonMessageInvalid` = "received json message invalid",
`receivedAttributesInvalid` = "received attributes invalid",
`onlyOptionTypeAlertSystemActiveAllowed` =
"only option type alertSystemActive allowed",
`sendingMessageToServerFailed` = "sending message to server failed". -/
inductive LocalErrorReason
  | onlyOptionMessageValid
  | receivedJsonMessageInvalid
  | receivedAttributesInvalid
  | onlyOptionTypeAlertSystemActiveAllowed
  | sendingMessageToServerFailed
deriving DecidableEq, Repr

/-- A JSON response sent back on the local socket by
`LocalServerSession.handle`: either an error object with fields
serverTime, message, error, or the success object with fields
serverTime, message and the payload of type response, result ok. -/
inductive LocalResponse
  | errorResp (serverTime : Int) (message : String) (error : LocalErrorReason)
  | okResp (serverTime : Int) (message : String)
deriving DecidableEq, Repr

/-- Parse outcome of the bytes received by `LocalServerSession.handle`:
* `notJson`: `json.loads(data)` raises (the received bytes are not valid
  JSON);
* `json messageField optionType valueOk delayOk`: `json.loads` succeeds;
  `messageField = none` means the lookup `incomingMessage["message"]`
  raises (the key is missing or the document is not an object);
  `optionType = none` means
  `str(incomingMessage["payload"]["optionType"])` raises (missing
  payload or missing optionType key); `valueOk` / `delayOk` record
  whether `float(...["value"])` / `int(...["timeDelay"])` succeed. -/
inductive LocalRequest
  | notJson
  | json (messageField : Option String) (optionType : Option String)
      (valueOk : Bool) (delayOk : Bool)
deriving DecidableEq, Repr

/-- Embeds `LocalServerSession.handle`
(src/managerClientDatabase/lib/localServer.py lines 47-161).
`sendOptionSuccess` is the result of `self.serverComm.sendOption(...)`;
`utcTimestamp` is `int(time.time())`; the result is the response sent
with `self.request.send`, or `none` when nothing is sent.

In the two `none` branches the code reaches an except block whose reply
construction evaluates `incomingMessage["message"]`: when `json.loads`
raised, the name `incomingMessage` is unbound (NameError); when the
"message" key was missing, the lookup raises again (KeyError).  Both
exceptions are swallowed by the inner `except Exception: pass`, so no
response is sent.  In every other branch the error or success object is
built from defined values and sent. -/
def localServerHandle (req : LocalRequest) (sendOptionSuccess : Bool)
    (utcTimestamp : Int) : Option LocalResponse :=
  match req with
  | LocalRequest.notJson => none
  | LocalRequest.json none _ _ _ => none
  | LocalRequest.json (some m) optionType valueOk delayOk =>
    if m ≠ "option" then
      some (LocalResponse.errorResp utcTimestamp m
        LocalErrorReason.onlyOptionMessageValid)
    else
      match optionType, valueOk, delayOk with
      | some ot, true, true =>
        if ot ≠ "alertSystemActive" then
          some (LocalResponse.errorResp utcTimestamp m
            LocalErrorReason.onlyOptionTypeAlertSystemActiveAllowed)
        else if sendOptionSuccess then
          some (LocalResponse.okResp utcTimestamp m)
        else
          some (LocalResponse.errorResp utcTimestamp m
            LocalErrorReason.sendingMessageToServerFailed)
      | _, _, _ =>
        some (LocalResponse.errorResp utcTimestamp m
          LocalErrorReason.receivedAttributesInvalid)

/-- A concrete forced `SensorAlert`, used to exercise the forced-alert
path of the poll loop. -/
def alertEx : SensorAlert :=
  { clientSensorId := 5, state := 1, hasOptionalData := false,
    optionalData := none, changeState := true, hasLatestData := false,
    dataType := 0, sensorData := 0 }

/-- A concrete sensor snapshot whose `forceSendAlert()` returned
`alertEx` while its state also changed this cycle. -/
def snapForced : SensorSnapshot :=
  { id := 5, oldState := 0, currentState := 1, forcedAlert := some alertEx,
    handlesStateMsgs := false, triggerState := 1, triggerAlert := true,
    triggerAlertNormal := false, hasOptionalData := false,
    optionalData := none, changeState := true, hasLatestData := false,
    sensorDataType := 0, sensorData := 0 }

/-- A concrete sensor snapshot with `handlesStateMsgs = True` whose state
changed this cycle and whose `forceSendAlert()` returned `None`. -/
def snapHandles : SensorSnapshot :=
  { id := 7, oldState := 0, currentState := 1, forcedAlert := none,
    handlesStateMsgs := true, triggerState := 1, triggerAlert := true,
    triggerAlertNormal := true, hasOptionalData := false,
    optionalData := none, changeState := true, hasLatestData := false,
    sensorDataType := 0, sensorData := 0 }

/-- A concrete sensor snapshot that transitioned into its trigger state
this cycle, with `triggerAlert` set, on the plain diff path. -/
def snapDiff : SensorSnapshot :=
  { id := 3, oldState := 0, currentState := 1, forcedAlert := none,
    handlesStateMsgs := false, triggerState := 1, triggerAlert := true,
    triggerAlertNormal := false, hasOptionalData := true,
    optionalData := some "door", changeState := true, hasLatestData := false,
    sensorDataType := 0, sensorData := 2 }

/-- A concrete `RaspberryPiGPIOInterruptSensor` state: trigger state 0
(so normal state 1), fresh edge counter, `delayBetweenTriggers = 10`,
`timeSensorTriggered = 5`, `edgeCountBeforeTrigger = 2`. -/
def interruptEx : InterruptState :=
  { state := 1, internalState := 1, lastTimeTriggered := 0, edgeCounter := 0,
    triggerState := 0, delayBetweenTriggers := 10, timeSensorTriggered := 5,
    edgeCountBeforeTrigger := 2 }

/-- A concrete `RaspberryPiDS18b20Sensor` state in the normal state with
an active greater-than threshold of 30. -/
def ds18b20Ex : DS18b20State :=
  { state := 0, triggerState := 1, interval := 10,
    lastTemperatureUpdate := 0, hasThreshold := true, threshold := 30,
    ordering := SensorOrdering.GT, sensorData := 20 }

/-- C2 (code evaluated at the failing input): starting from `state = 0`,
`currStateCtr = 0`, `thresStateCtr = 2`, two consecutive differing reads
`[1, 1]` flip `state` to 1 as intended; but because `currStateCtr` is
not reset on the flip, a single further read `0` — a run of only one
read differing from the now-current `state = 1`, shorter than the
threshold 2 — immediately flips `state` back to 0 (with the counter at
3).  This contradicts the claim that any run of fewer than
`thresStateCtr` differing reads leaves `state` unchanged. -/
theorem pollingSensor_flip_after_single_differing_read :
    (pollingRunReads ⟨0, 0, 2⟩ [1, 1]).state = 1 ∧
    pollingUpdateState (pollingRunReads ⟨0, 0, 2⟩ [1, 1]) 0 = ⟨0, 3, 2⟩ := by
  decide

/-- C3 (code evaluated at the failing input): when the received bytes are
not valid JSON, `LocalServerSession.handle` sends nothing back — the
error-reply construction itself raises (NameError on the unbound
`incomingMessage`) inside the inner try and is swallowed — whichever
value `sendOption` would return; this contradicts the claim that a JSON
error response is sent in that case.  For contrast, the third conjunct
shows the fully valid request with a successful `sendOption` receiving
the success response. -/
theorem localServerHandle_invalid_json_sends_no_response :
    localServerHandle LocalRequest.notJson true 0 = none ∧
    localServerHandle LocalRequest.notJson false 0 = none ∧
    localServerHandle
        (LocalRequest.json (some "option") (some "alertSystemActive") true true)
        true 0 =
      some (LocalResponse.okResp 0 "option") := by
  refine ⟨rfl, rfl, rfl⟩

/-- C4 (code evaluated at the failing input): with `interval = 10`
seconds, `updateState` starts a background refresh at `t = 100` and
again at `t = 111` — only 11 seconds apart, less than
`refreshInterval = 60` — because the guard compares the elapsed time
against `self.interval`, never reading `self.refreshInterval`.  This
contradicts the claim that two refreshes are never started less than
`refreshInterval` seconds apart. -/
theorem ds18b20_refresh_throttled_by_interval_not_refreshInterval :
    (ds18b20UpdateState
        { state := 1, triggerState := 0, interval := 10,
          lastTemperatureUpdate := 0, hasThreshold := false, threshold := 0,
          ordering := SensorOrdering.GT, sensorData := 0 } 100 0).2 = true ∧
    (ds18b20UpdateState
        (ds18b20UpdateState
          { state := 1, triggerState := 0, interval := 10,
            lastTemperatureUpdate := 0, hasThreshold := false, threshold := 0,
            ordering := SensorOrdering.GT, sensorData := 0 } 100 0).1
        111 0).2 = true ∧
    (111 - 100 : Int) < refreshInterval := by
  refine ⟨rfl, rfl, by decide⟩

/-- C8: whenever `forceSendAlert()` returns a `SensorAlert`, the poll
loop dispatches exactly that alert for the sensor this cycle — no
diff-based `SensorAlert` or `StateChange` is produced, whatever the
relation between `oldState` and `currentState` — and the local baseline
variable `oldState` is reassigned to `currentState`. -/
theorem forced_alert_priority (s : SensorSnapshot) (a : SensorAlert)
    (h : s.forcedAlert = some a) :
    processSensor s = ([Event.sensorAlert a], s.currentState) := by
  unfold processSensor
  rw [h]

/-- Witness for C8 at the concrete snapshot `snapForced` (whose state
also changed this cycle). -/
theorem forced_alert_priority_witness :
    processSensor snapForced = ([Event.sensorAlert alertEx], 1) :=
  forced_alert_priority snapForced alertEx rfl

/-- C9: a sensor with `handlesStateMsgs = True` whose `forceSendAlert()`
returned `None` never makes the poll loop dispatch an event through the
diff-based transition logic, even in a cycle in which its state
changed. -/
theorem handlesStateMsgs_skips_diff_path (s : SensorSnapshot)
    (hf : s.forcedAlert = none) (hh : s.handlesStateMsgs = true) :
    (processSensor s).1 = [] := by
  unfold processSensor
  rw [hf]
  by_cases he : s.oldState = s.currentState
  · simp [he]
  · simp [he, hh]

/-- Witness for C9 at the concrete snapshot `snapHandles`, whose state
changed (`oldState = 0`, `currentState = 1`). -/
theorem handlesStateMsgs_skips_diff_path_witness :
    (processSensor snapHandles).1 = [] :=
  handlesStateMsgs_skips_diff_path snapHandles rfl rfl

/-- C7: the full-state timer at the end of each poll cycle dispatches a
`sendSensorsState` snapshot exactly when more than 60 seconds have
elapsed since `lastFullStateSent` (so never other than by this timer),
resets `lastFullStateSent` to the current time on dispatch and leaves it
unchanged otherwise; consequently after every connected cycle at most 60
seconds separate the current time from the recorded last snapshot time,
and the first connected cycle (with `lastFullStateSent = 0` and a wall
clock past 60) dispatches a snapshot. -/
theorem fullState_timer_spec (last t : Int) :
    ((fullStateStep last t).1 = true ↔ t - last > 60) ∧
    ((fullStateStep last t).1 = true → (fullStateStep last t).2 = t) ∧
    ((fullStateStep last t).1 = false → (fullStateStep last t).2 = last) ∧
    (t - (fullStateStep last t).2 ≤ 60 ∨ (fullStateStep last t).2 = t) ∧
    (last = 0 → t > 60 → (fullStateStep last t).1 = true) := by
  unfold fullStateStep
  split_ifs with h
  · refine ⟨by simp [h], fun _ => rfl, by simp, Or.inr rfl, fun _ _ => rfl⟩
  · refine ⟨by simpa using h, by simp, fun _ => rfl, Or.inl (by omega), ?_⟩
    intro h0 h60
    exfalso
    omega

/-- Witness for C7 at `lastFullStateSent = 0`, `utcTimestamp = 100`. -/
theorem fullState_timer_spec_witness :
    (fullStateStep 0 100).1 = true ∧ (fullStateStep 0 100).2 = 100 :=
  ⟨(fullState_timer_spec 0 100).1.mpr (by decide),
   (fullState_timer_spec 0 100).2.1
     ((fullState_timer_spec 0 100).1.mpr (by decide))⟩

/-- C10: the interrupt callback only ever moves `_internalState` toward
the trigger state (it leaves it unchanged or sets it to `triggerState`);
`updateState` is characterized exactly: it sets `_internalState` to the
normal value `1 - triggerState` precisely when the sensor is currently
triggered and more than `timeSensorTriggered` seconds have elapsed since
`lastTimeTriggered`, otherwise leaves it unchanged, and always copies
`_internalState` into `state`. -/
theorem interrupt_internalState_monotone_invariant (s : InterruptState) (t : Int) :
    ((interruptCallback s t).internalState = s.internalState ∨
     (interruptCallback s t).internalState = s.triggerState) ∧
    ((interruptUpdateState s t).internalState =
      if s.state = s.triggerState ∧ t - s.lastTimeTriggered > s.timeSensorTriggered
      then 1 - s.triggerState else s.internalState) ∧
    (interruptUpdateState s t).state = (interruptUpdateState s t).internalState := by
  refine ⟨?_, ?_, ?_⟩
  · show (interruptCallback s t).internalState = s.internalState ∨
        (interruptCallback s t).internalState = s.triggerState
    unfold interruptCallback
    by_cases h1 : t - s.lastTimeTriggered > s.delayBetweenTriggers
    · simp [h1]
    · by_cases h2 : s.edgeCounter + 1 ≥ s.edgeCountBeforeTrigger
      · simp [h1, h2]
      · simp [h1, h2]
  · unfold interruptUpdateState
    split_ifs <;> rfl
  · unfold interruptUpdateState
    split_ifs <;> rfl

/-- The first component of `ds18b20UpdateState` is the threshold check
applied to the state with the refreshed timestamp and the copied shared
data value. -/
lemma ds18b20UpdateState_fst (s : DS18b20State) (t : Int) (shared : Rat) :
    (ds18b20UpdateState s t shared).1 =
      ds18b20ThresholdCheck
        { s with
          lastTemperatureUpdate :=
            if t - s.lastTemperatureUpdate > s.interval then t
            else s.lastTemperatureUpdate,
          sensorData := shared } := by
  unfold ds18b20UpdateState
  by_cases h : t - s.lastTemperatureUpdate > s.interval
  · simp [h]
  · simp [h]

/-- Closed form of the state computed by the threshold check under
`ordering = GT`. -/
lemma ds18b20ThresholdCheck_GT_state (s : DS18b20State)
    (hth : s.hasThreshold = true) (hord : s.ordering = SensorOrdering.GT) :
    (ds18b20ThresholdCheck s).state =
      if s.state = s.triggerState then
        (if s.sensorData ≤ s.threshold then 1 - s.triggerState else s.state)
      else
        (if s.sensorData > s.threshold then s.triggerState else s.state) := by
  unfold ds18b20ThresholdCheck
  rw [hth, hord]
  split_ifs <;> first | rfl | simp_all

/-- C6: for a `RaspberryPiDS18b20Sensor` with an active threshold and
`ordering = GT`, `updateState` moves a normal sensor to the trigger
state exactly when the current data value is strictly greater than the
threshold (in particular, not at equality), and moves a triggered
sensor back to the normal state exactly when the current data value is
less than or equal to the threshold. -/
theorem ds18b20_threshold_GT_iff (s : DS18b20State) (t : Int) (shared : Rat)
    (hth : s.hasThreshold = true) (hord : s.ordering = SensorOrdering.GT) :
    (s.state ≠ s.triggerState →
      (((ds18b20UpdateState s t shared).1.state = s.triggerState) ↔
        shared > s.threshold)) ∧
    (s.state = s.triggerState →
      (((ds18b20UpdateState s t shared).1.state = 1 - s.triggerState) ↔
        shared ≤ s.threshold)) := by
  rw [ds18b20UpdateState_fst s t shared]
  have hGT := ds18b20ThresholdCheck_GT_state
    { s with
      lastTemperatureUpdate :=
        if t - s.lastTemperatureUpdate > s.interval then t
        else s.lastTemperatureUpdate,
      sensorData := shared } hth hord
  rw [hGT]
  dsimp only
  constructor
  · intro hne
    rw [if_neg hne]
    by_cases hcmp : shared > s.threshold
    · simp [hcmp]
    · simp [hcmp, hne]
  · intro heq
    rw [if_pos heq]
    by_cases hcmp : shared ≤ s.threshold
    · simp [hcmp]
    · simp only [hcmp, if_false, ite_false]
      rw [heq]
      constructor
      · intro habs
        omega
      · intro habs
        exact habs.elim

/-- Witness for C6 at the concrete sensor `ds18b20Ex` (normal state,
threshold 30, GT): a data value of 35 flips the state to triggered, a
data value of exactly 30 does not. -/
theorem ds18b20_threshold_GT_iff_witness :
    (ds18b20UpdateState ds18b20Ex 100 35).1.state = 1 ∧
    ¬ (ds18b20UpdateState ds18b20Ex 100 30).1.state = 1 := by
  constructor
  · exact ((ds18b20_threshold_GT_iff ds18b20Ex 100 35 rfl rfl).1
      (by decide)).mpr (by norm_num [ds18b20Ex])
  · intro h
    have h30 := ((ds18b20_threshold_GT_iff ds18b20Ex 100 30 rfl rfl).1
      (by decide)).mp h
    norm_num [ds18b20Ex] at h30

/-- C1: on the diff path (no forced alert, `handlesStateMsgs` unset), a
cycle with unchanged state dispatches nothing, and a cycle whose state
changed dispatches exactly one event whose kind follows the truth
table: into the trigger state, a SensorAlert with state 1 if
`triggerAlert` is set else a StateChange with state 1; into the normal
state, a SensorAlert with state 0 if `triggerAlertNormal` is set else a
StateChange with state 0. -/
theorem sensorExecuter_diff_path_truth_table (s : SensorSnapshot)
    (hf : s.forcedAlert = none) (hh : s.handlesStateMsgs = false) :
    (s.oldState = s.currentState → (processSensor s).1 = []) ∧
    (s.oldState ≠ s.currentState →
      ((s.currentState = s.triggerState ∧ s.triggerAlert = true →
          (processSensor s).1 = [Event.sensorAlert
            { clientSensorId := s.id, state := 1,
              hasOptionalData := s.hasOptionalData,
              optionalData := s.optionalData, changeState := s.changeState,
              hasLatestData := s.hasLatestData, dataType := s.sensorDataType,
              sensorData := s.sensorData }]) ∧
       (s.currentState = s.triggerState ∧ s.triggerAlert = false →
          (processSensor s).1 = [Event.stateChange
            { clientSensorId := s.id, state := 1,
              dataType := s.sensorDataType, sensorData := s.sensorData }]) ∧
       (s.currentState ≠ s.triggerState ∧ s.triggerAlertNormal = true →
          (processSensor s).1 = [Event.sensorAlert
            { clientSensorId := s.id, state := 0,
              hasOptionalData := s.hasOptionalData,
              optionalData := s.optionalData, changeState := s.changeState,
              hasLatestData := s.hasLatestData, dataType := s.sensorDataType,
              sensorData := s.sensorData }]) ∧
       (s.currentState ≠ s.triggerState ∧ s.triggerAlertNormal = false →
          (processSensor s).1 = [Event.stateChange
            { clientSensorId := s.id, state := 0,
              dataType := s.sensorDataType, sensorData := s.sensorData }]))) := by
  constructor
  · intro he
    simp [processSensor, hf, he]
  · intro hne
    refine ⟨?_, ?_, ?_, ?_⟩
    · rintro ⟨hcs, hta⟩
      have hne2 : s.oldState ≠ s.triggerState := hcs ▸ hne
      simp [processSensor, hf, hne, hne2, hh, hcs, hta]
    · rintro ⟨hcs, hta⟩
      have hne2 : s.oldState ≠ s.triggerState := hcs ▸ hne
      simp [processSensor, hf, hne, hne2, hh, hcs, hta]
    · rintro ⟨hcs, htn⟩
      simp [processSensor, hf, hne, hh, hcs, htn]
    · rintro ⟨hcs, htn⟩
      simp [processSensor, hf, hne, hh, hcs, htn]

/-- Witness for C1 at the concrete snapshot `snapDiff` (transition into
the trigger state with `triggerAlert` set): exactly one SensorAlert
with state 1 and the alert metadata of the sensor is dispatched. -/
theorem sensorExecuter_diff_path_truth_table_witness :
    (processSensor snapDiff).1 = [Event.sensorAlert
      { clientSensorId := 3, state := 1, hasOptionalData := true,
        optionalData := some "door", changeState := true,
        hasLatestData := false, dataType := 0, sensorData := 2 }] :=
  ((sensorExecuter_diff_path_truth_table snapDiff rfl rfl).2
    (by decide)).1 ⟨rfl, rfl⟩

/-- Closed form of a run of interrupt callbacks that all arrive within
`delayBetweenTriggers` of the (never-updated) `lastTimeTriggered`: the
edge counter advances by one per callback, and `_internalState` is set
to the trigger state exactly when at least one callback saw the counter
reach `edgeCountBeforeTrigger`. -/
lemma interruptRun_within (ts : List Int) :
    ∀ s : InterruptState,
      (∀ t ∈ ts, t - s.lastTimeTriggered ≤ s.delayBetweenTriggers) →
      interruptRun s ts =
        { s with
          edgeCounter := s.edgeCounter + ts.length,
          internalState :=
            if 1 ≤ ts.length ∧
                s.edgeCountBeforeTrigger ≤ s.edgeCounter + ts.length then
              s.triggerState
            else s.internalState } := by
  induction ts with
  | nil =>
    intro s h
    simp [interruptRun]
  | cons t ts ih =>
    intro s h
    have hle : t - s.lastTimeTriggered ≤ s.delayBetweenTriggers :=
      h t (List.mem_cons_self t ts)
    have hng : ¬ t - s.lastTimeTriggered > s.delayBetweenTriggers :=
      not_lt.mpr hle
    have hstep : interruptRun s (t :: ts) =
        interruptRun (interruptCallback s t) ts := rfl
    rw [hstep]
    obtain ⟨st, intern, ltt, ec, trig, dbt, tst, th⟩ := s
    by_cases hc : ec + 1 ≥ th
    · have hcb : interruptCallback ⟨st, intern, ltt, ec, trig, dbt, tst, th⟩ t =
          ⟨st, trig, ltt, ec + 1, trig, dbt, tst, th⟩ := by
        unfold interruptCallback
        rw [if_neg hng, if_pos hc]
      rw [hcb]
      rw [ih ⟨st, trig, ltt, ec + 1, trig, dbt, tst, th⟩
        (fun u hu => h u (List.mem_cons_of_mem _ hu))]
      simp only [List.length_cons, InterruptState.mk.injEq, eq_self_iff_true,
        true_and, and_true]
      constructor
      · split_ifs <;> omega
      · omega
    · have hcb : interruptCallback ⟨st, intern, ltt, ec, trig, dbt, tst, th⟩ t =
          ⟨st, intern, ltt, ec + 1, trig, dbt, tst, th⟩ := by
        unfold interruptCallback
        rw [if_neg hng, if_neg hc]
      rw [hcb]
      rw [ih ⟨st, intern, ltt, ec + 1, trig, dbt, tst, th⟩
        (fun u hu => h u (List.mem_cons_of_mem _ hu))]
      simp only [List.length_cons, InterruptState.mk.injEq, eq_self_iff_true,
        true_and, and_true]
      constructor
      · split_ifs <;> omega
      · omega

/-- C5: starting from a freshly reset edge-interrupt sensor in the
normal state (edge counter 0), a burst of callbacks all arriving within
`delayBetweenTriggers` of `lastTimeTriggered` leaves the sensor normal
after the next `updateState` when the burst is shorter than
`edgeCountBeforeTrigger`; a burst at least that long commits the
triggered state — exactly once: after every prefix of the burst the
internal state is triggered precisely from the
`edgeCountBeforeTrigger`-th callback on — and the next `updateState`
flips `state` to triggered.  A callback arriving more than
`delayBetweenTriggers` after the last trigger only resets the edge
counter to 1 and the trigger time, leaving the internal state
unchanged. -/
theorem interruptSensor_edge_count_debounce (s : InterruptState) (ts : List Int)
    (hstate : s.state = 1 - s.triggerState)
    (hint : s.internalState = 1 - s.triggerState)
    (hctr : s.edgeCounter = 0)
    (hth1 : 1 ≤ s.edgeCountBeforeTrigger)
    (hts : ∀ t ∈ ts, t - s.lastTimeTriggered ≤ s.delayBetweenTriggers) :
    (ts.length < s.edgeCountBeforeTrigger →
      (interruptRun s ts).internalState = 1 - s.triggerState ∧
      ∀ u : Int,
        (interruptUpdateState (interruptRun s ts) u).state =
          1 - s.triggerState) ∧
    (s.edgeCountBeforeTrigger ≤ ts.length →
      (interruptRun s ts).internalState = s.triggerState ∧
      ∀ u : Int,
        (interruptUpdateState (interruptRun s ts) u).state = s.triggerState) ∧
    (∀ k : Nat,
      (interruptRun s (List.take k ts)).internalState =
        if s.edgeCountBeforeTrigger ≤ min k ts.length then s.triggerState
        else 1 - s.triggerState) ∧
    (∀ (s2 : InterruptState) (u : Int),
      u - s2.lastTimeTriggered > s2.delayBetweenTriggers →
      interruptCallback s2 u =
        { s2 with edgeCounter := 1, lastTimeTriggered := u }) := by
  have hrun := interruptRun_within ts s hts
  refine ⟨?_, ?_, ?_, ?_⟩
  · intro hlt
    have hinr : (interruptRun s ts).internalState = 1 - s.triggerState := by
      rw [hrun]
      dsimp only
      rw [if_neg (by omega)]
      exact hint
    refine ⟨hinr, fun u => ?_⟩
    unfold interruptUpdateState
    split_ifs with hcond
    · exfalso
      obtain ⟨hA, _⟩ := hcond
      rw [hrun] at hA
      dsimp only at hA
      omega
    · exact hinr
  · intro hge
    have hinr : (interruptRun s ts).internalState = s.triggerState := by
      rw [hrun]
      dsimp only
      rw [if_pos (by omega)]
    refine ⟨hinr, fun u => ?_⟩
    unfold interruptUpdateState
    split_ifs with hcond
    · exfalso
      obtain ⟨hA, _⟩ := hcond
      rw [hrun] at hA
      dsimp only at hA
      omega
    · exact hinr
  · intro k
    have htk : ∀ t ∈ List.take k ts,
        t - s.lastTimeTriggered ≤ s.delayBetweenTriggers :=
      fun u hu => hts u (List.take_subset k ts hu)
    rw [interruptRun_within (List.take k ts) s htk]
    dsimp only
    rw [List.length_take, hctr, hint]
    split_ifs <;> omega
  · intro s2 u hgt
    unfold interruptCallback
    rw [if_pos hgt]

/-- Witness for C5 at the concrete sensor `interruptEx`
(`edgeCountBeforeTrigger = 2`, trigger state 0): the two-callback burst
`[3, 4]` inside the 10-second window commits the triggered internal
state 0, and the next `updateState` at time 6 flips `state` to 0. -/
theorem interruptSensor_edge_count_debounce_witness :
    (interruptRun interruptEx [3, 4]).internalState = 0 ∧
    (interruptUpdateState (interruptRun interruptEx [3, 4]) 6).state = 0 := by
  have h := interruptSensor_edge_count_debounce interruptEx [3, 4]
    rfl rfl rfl (by decide) (by decide)
  exact ⟨(h.2.1 (by decide)).1, (h.2.1 (by decide)).2 6⟩
